import Mathlib

/-!
Verification of the response-sanitization core of `src/app.py` (a Flask
proxy for a property-data API).  Python strings are modelled as `List Char`
(sequences of Unicode code points); Python's `str.lower` is modelled on the
ASCII range (every comparison the program performs is against an
all-ASCII token), and `str.strip` strips the characters Python treats as
whitespace.  Machine floats are modelled by a sum type that records the
only facts the program inspects: NaN, ±Infinity, or finite.
-/

namespace Microburbs

/-- ASCII restriction of Python's `str.lower`, applied character-wise. -/
def pyLower (c : Char) : Char :=
  if 'A' ≤ c ∧ c ≤ 'Z' then Char.ofNat (c.toNat + 32) else c

/-- The characters Python's `str.strip()` removes (Unicode whitespace). -/
def pyIsSpace (c : Char) : Bool :=
  c.toNat ∈ [9, 10, 11, 12, 13, 28, 29, 30, 31, 32, 0x85, 0xa0, 0x1680,
    0x2000, 0x2001, 0x2002, 0x2003, 0x2004, 0x2005, 0x2006, 0x2007, 0x2008,
    0x2009, 0x200a, 0x2028, 0x2029, 0x202f, 0x205f, 0x3000]

/-- Python `s.strip()`: drop whitespace from both ends. -/
def pyStrip (s : List Char) : List Char :=
  ((s.dropWhile pyIsSpace).reverse.dropWhile pyIsSpace).reverse

/-- The token list of app.py lines 70 and 115:
`['nan', 'none', 'null', 'infinity', 'inf', '-inf', 'undefined']`. -/
def sentinelTokens : List (List Char) :=
  ["nan", "none", "null", "infinity", "inf", "-inf", "undefined"].map String.data

/-- The sentinel test of app.py lines 70-71 (and identically 115-116):
`value.lower() in [...] or value.strip() == '' or value == 'None' or value == 'NaN'`.
Note the `lower()` is applied to the *untrimmed* string. -/
def isSentinelString (s : List Char) : Bool :=
  decide (s.map pyLower ∈ sentinelTokens) || decide (pyStrip s = []) ||
    decide (s = "None".data) || decide (s = "NaN".data)

/-- Python `s.replace(old, new)` for a single-character pattern `old`. -/
def pyReplace1 (old : Char) (new : List Char) : List Char → List Char
  | [] => []
  | c :: rest => (if c = old then new else [c]) ++ pyReplace1 old new rest

/-- The Unicode replacements of app.py lines 78-79 (identically 123-124),
applied in source order:
NBSP→space, `²`→" sqm", en-dash→`-`, right single quote→`'`, bullet→`-`. -/
def replaceUnicode (s : List Char) : List Char :=
  pyReplace1 '\u2022' ['-']
    (pyReplace1 '\u2019' ['\'']
      (pyReplace1 '\u2013' ['-']
        (pyReplace1 '\u00b2' " sqm".data
          (pyReplace1 '\u00a0' [' '] s))))

/-- The keep-condition of the filter on app.py line 81 (identically 126):
`ord(char) >= 32 or char in '\t\n\r'`. -/
def keepCtrl (c : Char) : Bool :=
  decide (32 ≤ c.toNat ∨ c = '\t' ∨ c = '\n' ∨ c = '\r')

/-- App.py line 81 (identically 126): keep only characters passing `keepCtrl`. -/
def stripControl (s : List Char) : List Char :=
  s.filter keepCtrl

/-- The characters the chained `.replace('\xNN', '')` calls of app.py
lines 83-92 (identically 128-137) remove, in source order. -/
def residualControls : List Char :=
  ['\u0000', '\u0001', '\u0002', '\u0003', '\u0004', '\u0005', '\u0006',
   '\u0007', '\u0008', '\u000b', '\u000c', '\u000e', '\u000f', '\u0010',
   '\u0011', '\u0012', '\u0013', '\u0014', '\u0015', '\u0016', '\u0017',
   '\u0018', '\u0019', '\u001a', '\u001b', '\u001c', '\u001d', '\u001e',
   '\u001f']

/-- The chained `.replace('\xNN', '')` calls of app.py lines 83-92
(identically 128-137). -/
def removeResidualControls (s : List Char) : List Char :=
  residualControls.foldl (fun acc k => pyReplace1 k [] acc) s

/-- The full character-cleaning pipeline applied to a surviving string:
app.py lines 76-92 (identically 121-137). -/
def sanitizeChars (s : List Char) : List Char :=
  removeResidualControls (stripControl (replaceUnicode s))

/-- Model of a Python float as far as the program inspects it:
`math.isnan`, `math.isinf`, or a finite value. -/
inductive JNum where
  | nan : JNum
  | inf : JNum
  | ninf : JNum
  | fin : Int → JNum
deriving DecidableEq, Repr

/-- `math.isnan(x)`. -/
def JNum.isNaN : JNum → Bool
  | .nan => true
  | _ => false

/-- `math.isinf(x)`. -/
def JNum.isInf : JNum → Bool
  | .inf => true
  | .ninf => true
  | _ => false

/-- The value trees the program processes (spec section 3, `JsonValue`). -/
inductive JsonValue where
  | null : JsonValue
  | bool : Bool → JsonValue
  | num : JNum → JsonValue
  | str : List Char → JsonValue
  | arr : List JsonValue → JsonValue
  | obj : List (List Char × JsonValue) → JsonValue
deriving Repr

/-- The string branch of the dict case, app.py lines 68-94: either the
sentinel test nulls the value or the characters are cleaned. -/
def cleanStringDict (s : List Char) : JsonValue :=
  if isSentinelString s then .null else .str (sanitizeChars s)

/-- The string branch of the scalar case, app.py lines 113-138: either the
sentinel test nulls the value or the characters are cleaned. -/
def cleanStringScalar (s : List Char) : JsonValue :=
  if isSentinelString s then .null else .str (sanitizeChars s)

mutual

/-- `clean_nan_values`, app.py lines 58-144.  The dict branch (65-97)
keeps every key unchanged and handles string values inline via
`cleanStringDict`; the list branch (98-99) maps over elements; floats
(102-112) become null when NaN/infinite; standalone strings (113-138) go
through `cleanStringScalar`; everything else (139-140) is returned as is.
The enclosing `try/except` (64, 141-144) is dead in this pure model:
no operation performed by the body can raise. -/
def clean_nan_values : JsonValue → JsonValue
  | .obj kvs => .obj (cleanObjItems kvs)
  | .arr xs => .arr (cleanListItems xs)
  | .num x => if x.isNaN || x.isInf then .null else .num x
  | .str s => cleanStringScalar s
  | .bool b => .bool b
  | .null => .null

/-- The loop of app.py lines 67-96 over `data.items()`: string values are
handled inline, every other value recurses; the key is always reused. -/
def cleanObjItems : List (List Char × JsonValue) → List (List Char × JsonValue)
  | [] => []
  | (k, .str s) :: rest => (k, cleanStringDict s) :: cleanObjItems rest
  | (k, v) :: rest => (k, clean_nan_values v) :: cleanObjItems rest

/-- The list comprehension of app.py line 99. -/
def cleanListItems : List JsonValue → List JsonValue
  | [] => []
  | v :: rest => clean_nan_values v :: cleanListItems rest

end

mutual

/-- `find_problematic_field`, app.py lines 15-40, parameterized by the
predicate `bad` telling whether `json.dumps` raises on a given string
(the only effect of the library call the function observes).  The source
returns either `None` or the formatted text
`f"String field '{key}': {repr(value[:100])}"`; the model returns the pair
(key, first 100 characters of the value) that determines that text.
In the dict branch the source calls itself on dict values (line 23) and on
items of list values (line 26) but discards both results, so those calls
have no observable effect and are omitted here. -/
def find_problematic_field (bad : List Char → Bool) :
    JsonValue → Option (List Char × List Char)
  | .obj kvs => findFieldDict bad kvs
  | .arr xs => findFieldList bad xs
  | _ => none

/-- The loop of app.py lines 21-32 over `data.items()`. -/
def findFieldDict (bad : List Char → Bool) :
    List (List Char × JsonValue) → Option (List Char × List Char)
  | [] => none
  | (k, v) :: rest =>
    match v with
    | .str s => if bad s then some (k, s.take 100) else findFieldDict bad rest
    | _ => findFieldDict bad rest

/-- The loop of app.py lines 34-37 over a list, which does propagate the
first non-`None` recursive result. -/
def findFieldList (bad : List Char → Bool) :
    List JsonValue → Option (List Char × List Char)
  | [] => none
  | x :: rest =>
    match find_problematic_field bad x with
    | some r => some r
    | none => findFieldList bad rest

end

mutual

/-- Whether a tree contains a string leaf on which `bad` holds (i.e. a
string leaf that fails isolated serialization). -/
def containsBadString (bad : List Char → Bool) : JsonValue → Bool
  | .str s => bad s
  | .arr xs => containsBadStringList bad xs
  | .obj kvs => containsBadStringObj bad kvs
  | _ => false

/-- List version of `containsBadString`. -/
def containsBadStringList (bad : List Char → Bool) : List JsonValue → Bool
  | [] => false
  | x :: rest => containsBadString bad x || containsBadStringList bad rest

/-- Object version of `containsBadString`. -/
def containsBadStringObj (bad : List Char → Bool) :
    List (List Char × JsonValue) → Bool
  | [] => false
  | kv :: rest => containsBadString bad kv.2 || containsBadStringObj bad rest

end

/-- A concrete instance of a failing-string predicate, used to evaluate
`find_problematic_field` on concrete trees. -/
def eqBadToken (s : List Char) : Bool :=
  decide (s = "bad".data)

/-- What the handler observes of a raised Python exception `e`:
`str(e)` and `type(e).__name__`. -/
structure ErrInfo where
  msg : List Char
  tyName : List Char

/-- Python's `str(n)` for a natural number. -/
def natToChars (n : Nat) : List Char :=
  (Nat.repr n).data

/-- The serialization stage of `get_properties`, app.py lines 204-237:
`json.dumps(cleaned_data, ensure_ascii=False)` is attempted; on success the
cleaned tree is returned with status 200 (line 208); if `dumps` raises
(modelled by `dumpsError = some e`) the handler returns status 500 with the
diagnostic object of lines 231-237.  `dataStr` models `str(cleaned_data)`
and `origLen` models `len(response.text)`. -/
def serializeStage (cleaned : JsonValue) (dumpsError : Option ErrInfo)
    (dataStr : List Char) (origLen : Nat) : Nat × JsonValue :=
  match dumpsError with
  | none => (200, cleaned)
  | some e =>
    (500, .obj [
      ("error".data, .str ("Invalid JSON after cleaning: ".data ++ e.msg)),
      ("data_size".data, .num (.fin dataStr.length)),
      ("data_preview".data,
        .str (if dataStr = [] then "No data".data else dataStr.take 1000)),
      ("original_response_size".data, .num (.fin origLen)),
      ("error_type".data, .str e.tyName)])

/-- The response-status dispatch of `get_properties`, app.py lines 192-265:
on upstream status 200 the body is parsed (`parsed = none` models a
`json.JSONDecodeError`, handled at lines 238-247), cleaned, and serialized;
on any other status, lines 259-265 return the upstream status together with
`{'error': f'API request failed with status {status}', 'details': response.text}`
— the `details` field carries the whole body text, untruncated. -/
def get_properties_core (status : Nat) (bodyText : List Char)
    (parsed : Option JsonValue) (dumpsError : Option ErrInfo)
    (dataStr : List Char) (parseErr : ErrInfo) : Nat × JsonValue :=
  if status = 200 then
    match parsed with
    | some data => serializeStage (clean_nan_values data) dumpsError dataStr bodyText.length
    | none =>
      (500, .obj [
        ("error".data, .str ("API returned invalid JSON: ".data ++ parseErr.msg)),
        ("status_code".data, .num (.fin status)),
        ("response_length".data, .num (.fin bodyText.length)),
        ("response_preview".data,
          .str (if bodyText = [] then "No response text".data else bodyText.take 1000))])
  else
    (status, .obj [
      ("error".data, .str ("API request failed with status ".data ++ natToChars status)),
      ("details".data, .str bodyText)])

/-- The keys of an object value, in order (empty for non-objects). -/
def jKeys : JsonValue → List (List Char)
  | .obj kvs => kvs.map Prod.fst
  | _ => []

/-- Association-list lookup on an object's members. -/
def lookupKV (k : List Char) : List (List Char × JsonValue) → Option JsonValue
  | [] => none
  | (k', v) :: rest => if k = k' then some v else lookupKV k rest

/-- Lookup of a member in an object value. -/
def objLookup (k : List Char) : JsonValue → Option JsonValue
  | .obj kvs => lookupKV k kvs
  | _ => none

/-- Length of the text of the `details` member of a response body
(0 when absent or not a string). -/
def detailsLength (r : Nat × JsonValue) : Nat :=
  match objLookup ("details".data) r.2 with
  | some (.str s) => s.length
  | _ => 0

/-- The string whose case-insensitive trimmed value is a banned sentinel
token, as the spec phrases the output guarantee: the trimmed, lowercased
content is one of the seven tokens or is empty. -/
def bannedTrimmed (s : List Char) : Bool :=
  decide ((pyStrip s).map pyLower ∈ sentinelTokens) || decide (pyStrip s = [])

mutual

/-- Whether a tree contains a `num` leaf holding NaN or ±Infinity. -/
def hasNanInf : JsonValue → Bool
  | .num x => x.isNaN || x.isInf
  | .arr xs => hasNanInfList xs
  | .obj kvs => hasNanInfObj kvs
  | _ => false

/-- List version of `hasNanInf`. -/
def hasNanInfList : List JsonValue → Bool
  | [] => false
  | x :: rest => hasNanInf x || hasNanInfList rest

/-- Object version of `hasNanInf`. -/
def hasNanInfObj : List (List Char × JsonValue) → Bool
  | [] => false
  | kv :: rest => hasNanInf kv.2 || hasNanInfObj rest

end

/-- The five characters the replacement table of app.py lines 78-79 acts on. -/
def specialChars : List Char :=
  [' ', '²', '–', '’', '•']

theorem mem_pyReplace1 {c old : Char} {new : List Char} :
    ∀ {s : List Char}, c ∈ pyReplace1 old new s → c ∈ new ∨ (c ∈ s ∧ c ≠ old)
  | [], h => by simp [pyReplace1] at h
  | a :: rest, h => by
    simp only [pyReplace1, List.mem_append] at h
    rcases h with h | h
    · by_cases ha : a = old
      · rw [if_pos ha] at h; exact Or.inl h
      · rw [if_neg ha] at h
        simp only [List.mem_singleton] at h
        subst h
        exact Or.inr ⟨List.mem_cons_self _ _, ha⟩
    · rcases mem_pyReplace1 h with h | ⟨h1, h2⟩
      · exact Or.inl h
      · exact Or.inr ⟨List.mem_cons_of_mem _ h1, h2⟩

theorem pyReplace1_eq_self {old : Char} {new : List Char} :
    ∀ {s : List Char}, (∀ c ∈ s, c ≠ old) → pyReplace1 old new s = s
  | [], _ => rfl
  | a :: rest, h => by
    simp only [pyReplace1]
    rw [if_neg (h a (List.mem_cons_self _ _)),
        pyReplace1_eq_self (fun c hc => h c (List.mem_cons_of_mem _ hc))]
    rfl

theorem mem_foldl_replace {c : Char} :
    ∀ (L : List Char) (s : List Char),
      c ∈ L.foldl (fun acc k => pyReplace1 k [] acc) s → c ∈ s
  | [], _, h => h
  | k :: L, s, h => by
    have h2 := mem_foldl_replace L (pyReplace1 k [] s) h
    rcases mem_pyReplace1 h2 with h3 | ⟨h3, _⟩
    · simp at h3
    · exact h3

theorem foldl_replace_eq_self :
    ∀ (L : List Char) (s : List Char),
      (∀ c ∈ s, c ∉ L) → L.foldl (fun acc k => pyReplace1 k [] acc) s = s
  | [], _, _ => rfl
  | k :: L, s, h => by
    have hne : ∀ c ∈ s, c ≠ k :=
      fun c hc he => h c hc (he ▸ List.mem_cons_self _ _)
    rw [List.foldl_cons, pyReplace1_eq_self hne]
    exact foldl_replace_eq_self L s (fun c hc hm => h c hc (List.mem_cons_of_mem _ hm))

theorem removeResidual_stripControl (t : List Char) :
    removeResidualControls (stripControl t) = stripControl t := by
  apply foldl_replace_eq_self
  intro c hc hm
  have hk : keepCtrl c = true := (List.mem_filter.mp hc).2
  have hall : ∀ x ∈ residualControls, keepCtrl x = false := by decide
  rw [hall c hm] at hk
  exact absurd hk (by simp)

theorem sanitizeChars_eq (s : List Char) :
    sanitizeChars s = stripControl (replaceUnicode s) :=
  removeResidual_stripControl _

theorem mem_sanitizeChars {c : Char} {s : List Char} (h : c ∈ sanitizeChars s) :
    c ∈ stripControl (replaceUnicode s) :=
  mem_foldl_replace residualControls _ h

theorem keepCtrl_of_mem_sanitizeChars {c : Char} {s : List Char}
    (h : c ∈ sanitizeChars s) : keepCtrl c = true :=
  (List.mem_filter.mp (mem_sanitizeChars h)).2

theorem replaceUnicode_no_special {c : Char} {s : List Char}
    (h : c ∈ replaceUnicode s) : c ∉ specialChars := by
  unfold replaceUnicode at h
  rcases mem_pyReplace1 h with h | ⟨h, h5⟩
  · exact (by decide : ∀ x ∈ (['-'] : List Char), x ∉ specialChars) c h
  rcases mem_pyReplace1 h with h | ⟨h, h4⟩
  · exact (by decide : ∀ x ∈ (['\''] : List Char), x ∉ specialChars) c h
  rcases mem_pyReplace1 h with h | ⟨h, h3⟩
  · exact (by decide : ∀ x ∈ (['-'] : List Char), x ∉ specialChars) c h
  rcases mem_pyReplace1 h with h | ⟨h, h2⟩
  · exact (by decide : ∀ x ∈ " sqm".data, x ∉ specialChars) c h
  rcases mem_pyReplace1 h with h | ⟨h, h1⟩
  · exact (by decide : ∀ x ∈ ([' '] : List Char), x ∉ specialChars) c h
  intro hm
  simp only [specialChars, List.mem_cons, List.not_mem_nil, or_false] at hm
  rcases hm with rfl | rfl | rfl | rfl | rfl
  · exact h1 rfl
  · exact h2 rfl
  · exact h3 rfl
  · exact h4 rfl
  · exact h5 rfl

theorem sanitize_no_special {c : Char} {s : List Char}
    (h : c ∈ sanitizeChars s) : c ∉ specialChars :=
  replaceUnicode_no_special ((List.mem_filter.mp (mem_sanitizeChars h)).1)

theorem replaceUnicode_eq_self {s : List Char}
    (h : ∀ c ∈ s, c ∉ specialChars) : replaceUnicode s = s := by
  unfold replaceUnicode
  rw [pyReplace1_eq_self (fun c hc he => h c hc (by rw [he]; decide)),
      pyReplace1_eq_self (fun c hc he => h c hc (by rw [he]; decide)),
      pyReplace1_eq_self (fun c hc he => h c hc (by rw [he]; decide)),
      pyReplace1_eq_self (fun c hc he => h c hc (by rw [he]; decide)),
      pyReplace1_eq_self (fun c hc he => h c hc (by rw [he]; decide))]

theorem stripControl_eq_self {s : List Char}
    (h : ∀ c ∈ s, keepCtrl c = true) : stripControl s = s :=
  List.filter_eq_self.mpr h

theorem sanitizeChars_fixed (s : List Char) :
    sanitizeChars (sanitizeChars s) = sanitizeChars s := by
  have hk : ∀ c ∈ sanitizeChars s, keepCtrl c = true :=
    fun _ hc => keepCtrl_of_mem_sanitizeChars hc
  have hns : ∀ c ∈ sanitizeChars s, c ∉ specialChars :=
    fun _ hc => sanitize_no_special hc
  show removeResidualControls (stripControl (replaceUnicode (sanitizeChars s))) =
    sanitizeChars s
  rw [replaceUnicode_eq_self hns, stripControl_eq_self hk]
  apply foldl_replace_eq_self
  intro c hc hm
  have hkc := hk c hc
  have hall : ∀ x ∈ residualControls, keepCtrl x = false := by decide
  rw [hall c hm] at hkc
  exact absurd hkc (by simp)

theorem sanitizeChars_all_keep (s : List Char) :
    (sanitizeChars s).all keepCtrl = true := by
  rw [List.all_eq_true]
  exact fun c hc => keepCtrl_of_mem_sanitizeChars hc

theorem cleanStringDict_eq_scalar (s : List Char) :
    cleanStringDict s = cleanStringScalar s := rfl

theorem cleanObjItems_eq_map :
    ∀ kvs : List (List Char × JsonValue),
      cleanObjItems kvs = kvs.map (fun kv => (kv.1, clean_nan_values kv.2))
  | [] => rfl
  | (k, v) :: rest => by
    have ih := cleanObjItems_eq_map rest
    cases v with
    | str s =>
      show (k, cleanStringDict s) :: cleanObjItems rest = _
      rw [ih]; rfl
    | null =>
      show (k, clean_nan_values .null) :: cleanObjItems rest = _
      rw [ih]; rfl
    | bool b =>
      show (k, clean_nan_values (.bool b)) :: cleanObjItems rest = _
      rw [ih]; rfl
    | num x =>
      show (k, clean_nan_values (.num x)) :: cleanObjItems rest = _
      rw [ih]; rfl
    | arr xs =>
      show (k, clean_nan_values (.arr xs)) :: cleanObjItems rest = _
      rw [ih]; rfl
    | obj kvs' =>
      show (k, clean_nan_values (.obj kvs')) :: cleanObjItems rest = _
      rw [ih]; rfl

theorem cleanListItems_eq_map :
    ∀ xs : List JsonValue, cleanListItems xs = xs.map clean_nan_values
  | [] => rfl
  | x :: rest => by
    show clean_nan_values x :: cleanListItems rest = _
    rw [cleanListItems_eq_map rest]; rfl

theorem clean_obj_eq (kvs : List (List Char × JsonValue)) :
    clean_nan_values (.obj kvs) =
      .obj (kvs.map (fun kv => (kv.1, clean_nan_values kv.2))) := by
  show JsonValue.obj (cleanObjItems kvs) = _
  rw [cleanObjItems_eq_map]

theorem clean_arr_eq (xs : List JsonValue) :
    clean_nan_values (.arr xs) = .arr (xs.map clean_nan_values) := by
  show JsonValue.arr (cleanListItems xs) = _
  rw [cleanListItems_eq_map]

theorem map_fst_clean :
    ∀ kvs : List (List Char × JsonValue),
      (kvs.map (fun kv => (kv.1, clean_nan_values kv.2))).map Prod.fst =
        kvs.map Prod.fst
  | [] => rfl
  | kv :: rest => by
    simp only [List.map_cons]
    rw [map_fst_clean rest]

theorem clean_str_stable (s : List Char) :
    clean_nan_values (clean_nan_values (clean_nan_values (.str s))) =
      clean_nan_values (clean_nan_values (.str s)) := by
  show clean_nan_values (clean_nan_values (cleanStringScalar s)) =
    clean_nan_values (cleanStringScalar s)
  unfold cleanStringScalar
  by_cases h : isSentinelString s = true
  · rw [if_pos h]; rfl
  · rw [if_neg h]
    show clean_nan_values (cleanStringScalar (sanitizeChars s)) =
      cleanStringScalar (sanitizeChars s)
    unfold cleanStringScalar
    by_cases h2 : isSentinelString (sanitizeChars s) = true
    · rw [if_pos h2]; rfl
    · rw [if_neg h2, sanitizeChars_fixed s]
      show cleanStringScalar (sanitizeChars s) = .str (sanitizeChars s)
      unfold cleanStringScalar
      rw [if_neg h2, sanitizeChars_fixed s]

mutual

theorem clean_clean_stable :
    ∀ v : JsonValue,
      clean_nan_values (clean_nan_values (clean_nan_values v)) =
        clean_nan_values (clean_nan_values v)
  | .null => rfl
  | .bool _ => rfl
  | .num x => by cases x <;> rfl
  | .str s => clean_str_stable s
  | .arr xs => by
    simp only [clean_arr_eq, List.map_map, Function.comp_def]
    rw [clean_clean_stable_list xs]
  | .obj kvs => by
    simp only [clean_obj_eq, List.map_map, Function.comp_def]
    rw [clean_clean_stable_obj kvs]

theorem clean_clean_stable_list :
    ∀ xs : List JsonValue,
      xs.map (fun x => clean_nan_values (clean_nan_values (clean_nan_values x))) =
        xs.map (fun x => clean_nan_values (clean_nan_values x))
  | [] => rfl
  | x :: rest => by
    simp only [List.map_cons]
    rw [clean_clean_stable x, clean_clean_stable_list rest]

theorem clean_clean_stable_obj :
    ∀ kvs : List (List Char × JsonValue),
      kvs.map (fun kv => (kv.1,
          clean_nan_values (clean_nan_values (clean_nan_values kv.2)))) =
        kvs.map (fun kv => (kv.1, clean_nan_values (clean_nan_values kv.2)))
  | [] => rfl
  | kv :: rest => by
    simp only [List.map_cons]
    rw [clean_clean_stable kv.2, clean_clean_stable_obj rest]

end

mutual

theorem clean_no_nanInf : ∀ v : JsonValue, hasNanInf (clean_nan_values v) = false
  | .null => rfl
  | .bool _ => rfl
  | .num x => by cases x <;> rfl
  | .str s => by
    show hasNanInf (cleanStringScalar s) = false
    unfold cleanStringScalar
    by_cases h : isSentinelString s = true
    · rw [if_pos h]; rfl
    · rw [if_neg h]; rfl
  | .arr xs => by
    show hasNanInfList (cleanListItems xs) = false
    rw [cleanListItems_eq_map]
    exact clean_no_nanInf_list xs
  | .obj kvs => by
    show hasNanInfObj (cleanObjItems kvs) = false
    rw [cleanObjItems_eq_map]
    exact clean_no_nanInf_obj kvs

theorem clean_no_nanInf_list :
    ∀ xs : List JsonValue, hasNanInfList (xs.map clean_nan_values) = false
  | [] => rfl
  | x :: rest => by
    simp only [List.map_cons]
    show (hasNanInf (clean_nan_values x) ||
      hasNanInfList (rest.map clean_nan_values)) = false
    rw [clean_no_nanInf x, clean_no_nanInf_list rest]
    rfl

theorem clean_no_nanInf_obj :
    ∀ kvs : List (List Char × JsonValue),
      hasNanInfObj (kvs.map (fun kv => (kv.1, clean_nan_values kv.2))) = false
  | [] => rfl
  | kv :: rest => by
    simp only [List.map_cons]
    show (hasNanInf (clean_nan_values kv.2) ||
      hasNanInfObj (rest.map (fun kv => (kv.1, clean_nan_values kv.2)))) = false
    rw [clean_no_nanInf kv.2, clean_no_nanInf_obj rest]
    rfl

end

theorem bool_or_false {a b : Bool} (h : (a || b) = false) :
    a = false ∧ b = false := by
  cases a
  · cases b
    · exact ⟨rfl, rfl⟩
    · exact absurd h (by simp)
  · exact absurd h (by simp)

mutual

theorem find_none_of_no_bad (bad : List Char → Bool) :
    ∀ v : JsonValue, containsBadString bad v = false →
      find_problematic_field bad v = none
  | .null, _ => rfl
  | .bool _, _ => rfl
  | .num _, _ => rfl
  | .str _, _ => rfl
  | .arr xs, h => by
    show findFieldList bad xs = none
    exact findList_none_of_no_bad bad xs h
  | .obj kvs, h => by
    show findFieldDict bad kvs = none
    exact findDict_none_of_no_bad bad kvs h

theorem findDict_none_of_no_bad (bad : List Char → Bool) :
    ∀ kvs : List (List Char × JsonValue),
      containsBadStringObj bad kvs = false → findFieldDict bad kvs = none
  | [], _ => rfl
  | (k, v) :: rest, h => by
    have hh : (containsBadString bad v || containsBadStringObj bad rest) = false := h
    have h' := bool_or_false hh
    cases v with
    | str s =>
      have hs : bad s = false := h'.1
      show (if bad s then some (k, s.take 100) else findFieldDict bad rest) = none
      rw [hs]
      exact findDict_none_of_no_bad bad rest h'.2
    | null => exact findDict_none_of_no_bad bad rest h'.2
    | bool b => exact findDict_none_of_no_bad bad rest h'.2
    | num x => exact findDict_none_of_no_bad bad rest h'.2
    | arr xs => exact findDict_none_of_no_bad bad rest h'.2
    | obj kvs' => exact findDict_none_of_no_bad bad rest h'.2

theorem findList_none_of_no_bad (bad : List Char → Bool) :
    ∀ xs : List JsonValue,
      containsBadStringList bad xs = false → findFieldList bad xs = none
  | [], _ => rfl
  | x :: rest, h => by
    have hh : (containsBadString bad x || containsBadStringList bad rest) = false := h
    have h' := bool_or_false hh
    show (match find_problematic_field bad x with
          | some r => some r
          | none => findFieldList bad rest) = none
    rw [find_none_of_no_bad bad x h'.1]
    exact findList_none_of_no_bad bad rest h'.2

end

theorem get_properties_nonOk (status : Nat) (bodyText : List Char)
    (parsed : Option JsonValue) (dumpsError : Option ErrInfo)
    (dataStr : List Char) (parseErr : ErrInfo) (h : status ≠ 200) :
    get_properties_core status bodyText parsed dumpsError dataStr parseErr =
      (status, .obj [
        ("error".data,
          .str ("API request failed with status ".data ++ natToChars status)),
        ("details".data, .str bodyText)]) := by
  unfold get_properties_core
  rw [if_neg h]

theorem detailsLength_pair (st : Nat) (ev : JsonValue) (b : List Char) :
    detailsLength (st, .obj [("error".data, ev), ("details".data, .str b)]) =
      b.length := rfl

example : clean_nan_values (.str "nan".data) = .null := rfl

example : clean_nan_values (.str (" nan ".data)) = .str (" nan ".data) := rfl

example :
    clean_nan_values (.obj [("a".data, .num .nan), ("b".data, .str "x\u0000y".data)]) =
      .obj [("a".data, .null), ("b".data, .str "xy".data)] := rfl

/-- C1 (amended): `clean_nan_values` always terminates (it is a total
function of this development) and its output contains no `num` leaf
holding NaN or ±Infinity.  The further part of the claim — that the output
contains no string whose case-insensitive *trimmed* value is a banned
sentinel token — is refuted by `c1_counterexample`: the source applies
`lower()` to the untrimmed string, so `" nan "` survives cleaning. -/
theorem c1_clean_removes_nan_inf (v : JsonValue) :
    hasNanInf (clean_nan_values v) = false :=
  clean_no_nanInf v

/-- C1 counterexample: the input string `" nan "` is returned unchanged by
`clean_nan_values`, yet its case-insensitive trimmed value is the banned
sentinel token `"nan"`, so the cleaned tree does contain a string banned
by the claim. -/
theorem c1_counterexample :
    clean_nan_values (.str (" nan ".data)) = .str (" nan ".data) ∧
      bannedTrimmed (" nan ".data) = true :=
  ⟨rfl, by decide⟩

/-- C2 (amended): cleaning is not idempotent (see `c2_counterexample`),
but it stabilizes after two passes: a third application of
`clean_nan_values` never changes the result of two applications. -/
theorem c2_clean_stabilizes_after_two (v : JsonValue) :
    clean_nan_values (clean_nan_values (clean_nan_values v)) =
      clean_nan_values (clean_nan_values v) :=
  clean_clean_stable v

/-- C2 counterexample: on the string `"nan\x00"` one cleaning pass strips
the control character and yields the string `"nan"`, which a second pass
recognizes as a sentinel and nulls, so `clean(clean(v)) ≠ clean(v)`. -/
theorem c2_counterexample :
    clean_nan_values (.str ("nan".data ++ ['\u0000'])) = .str "nan".data ∧
      clean_nan_values (clean_nan_values (.str ("nan".data ++ ['\u0000']))) =
        .null ∧
      clean_nan_values (clean_nan_values (.str ("nan".data ++ ['\u0000']))) ≠
        clean_nan_values (.str ("nan".data ++ ['\u0000'])) := by
  refine ⟨rfl, rfl, ?_⟩
  intro h
  exact JsonValue.noConfusion
    (show JsonValue.null = JsonValue.str "nan".data from h)

/-- C3 (amended): the dict branch of `clean_nan_values` passes every key
through unchanged — keys are never sanitized and never dropped — while
each value is cleaned (string values via the inline string branch, which
equals `clean_nan_values` on strings). -/
theorem c3_keys_passed_through (kvs : List (List Char × JsonValue)) :
    clean_nan_values (.obj kvs) =
      .obj (kvs.map (fun kv => (kv.1, clean_nan_values kv.2))) :=
  clean_obj_eq kvs

/-- C3 counterexample: the key `"\x00"` sanitizes to the empty string, so
per the claim its entry should be dropped; the code keeps the entry with
the key unchanged. -/
theorem c3_counterexample :
    sanitizeChars ['\u0000'] = [] ∧
      clean_nan_values (.obj [(['\u0000'], .bool true)]) =
        .obj [(['\u0000'], .bool true)] :=
  ⟨rfl, rfl⟩

/-- C4 (amended): a string is nulled when its *untrimmed* lowercase equals
one of the seven sentinel tokens, or it strips to the empty string, or it
is literally `"None"`/`"NaN"` — both as a standalone value and as an
object member value; the spec's concrete examples
(`{"bedrooms": NaN}` → null, `{"price": ""}` → null) hold.  The claim's
"case-insensitive trimmed" phrasing is refuted by `c4_counterexample`. -/
theorem c4_sentinel_string_nulled (s k : List Char)
    (h : isSentinelString s = true) :
    clean_nan_values (.str s) = .null ∧
      clean_nan_values (.obj [(k, .str s)]) = .obj [(k, .null)] ∧
      clean_nan_values (.obj [("bedrooms".data, .num .nan)]) =
        .obj [("bedrooms".data, .null)] ∧
      clean_nan_values (.obj [("price".data, .str "".data)]) =
        .obj [("price".data, .null)] := by
  refine ⟨?_, ?_, rfl, rfl⟩
  · show cleanStringScalar s = .null
    unfold cleanStringScalar
    rw [if_pos h]
  · show JsonValue.obj [(k, cleanStringDict s)] = .obj [(k, .null)]
    unfold cleanStringDict
    rw [if_pos h]

/-- C4 witness: `"NaN"` passes the sentinel test and the member
`{"land_size": "NaN"}` cleans to `{"land_size": null}`. -/
theorem c4_witness :
    isSentinelString "NaN".data = true ∧
      clean_nan_values (.obj [("land_size".data, .str "NaN".data)]) =
        .obj [("land_size".data, .null)] :=
  ⟨by decide, (c4_sentinel_string_nulled "NaN".data "land_size".data (by decide)).2.1⟩

/-- C4 counterexample: `" nan "` has case-insensitive trimmed content
`"nan"`, yet `clean_nan_values` keeps it as a string instead of mapping it
to null, because the source lowercases without trimming. -/
theorem c4_counterexample :
    (pyStrip (" nan ".data)).map pyLower ∈ sentinelTokens ∧
      clean_nan_values (.obj [("bedrooms".data, .str (" nan ".data))]) =
        .obj [("bedrooms".data, .str (" nan ".data))] :=
  ⟨by decide, rfl⟩

/-- C5 (amended): string sanitization removes every C0 control character
(code point below 0x20) except tab, line feed and carriage return — every
character of the output passes `keepCtrl`.  The claim's further assertion
that the DEL/C1 range 0x7F–0x9F is also removed is refuted by
`c5_counterexample`. -/
theorem c5_c0_controls_stripped (s : List Char) :
    (sanitizeChars s).all keepCtrl = true :=
  sanitizeChars_all_keep s

/-- C5 counterexample: the DEL character 0x7F survives sanitization
unchanged, so the output is not free of characters in 0x7F–0x9F. -/
theorem c5_counterexample :
    sanitizeChars ['\u007f'] = ['\u007f'] ∧ ('\u007f').toNat = 0x7f :=
  ⟨rfl, rfl⟩

/-- C6 (amended): when the preferred serialization succeeds the cleaned
tree is returned with status 200; when it raises, the handler does not
fall back to an ASCII-safe serialization of the cleaned data — it
immediately returns status 500 with the diagnostic object whose fields are
`error` (prefixed `"Invalid JSON after cleaning: "`), `data_size`,
`data_preview`, `original_response_size` and `error_type`. -/
theorem c6_dumps_failure_response (cleaned : JsonValue) (e : ErrInfo)
    (dataStr : List Char) (origLen : Nat) :
    serializeStage cleaned none dataStr origLen = (200, cleaned) ∧
      (serializeStage cleaned (some e) dataStr origLen).1 = 500 ∧
      jKeys (serializeStage cleaned (some e) dataStr origLen).2 =
        ["error".data, "data_size".data, "data_preview".data,
         "original_response_size".data, "error_type".data] ∧
      objLookup "error".data (serializeStage cleaned (some e) dataStr origLen).2 =
        some (.str ("Invalid JSON after cleaning: ".data ++ e.msg)) :=
  ⟨rfl, rfl, rfl, rfl⟩

/-- C6 counterexample: when the preferred serialization fails, the
response is a 500 carrying the five-field diagnostic object — not a
fallback serialization of the cleaned data, and not the claimed minimal
object with exactly the fields `error`/`message`/`data_type`. -/
theorem c6_counterexample :
    serializeStage .null (some ⟨"boom".data, "ValueError".data⟩) "None".data 4 =
      (500, .obj [
        ("error".data, .str "Invalid JSON after cleaning: boom".data),
        ("data_size".data, .num (.fin 4)),
        ("data_preview".data, .str "None".data),
        ("original_response_size".data, .num (.fin 4)),
        ("error_type".data, .str "ValueError".data)]) ∧
      jKeys (serializeStage .null
          (some ⟨"boom".data, "ValueError".data⟩) "None".data 4).2 ≠
        ["error".data, "message".data, "data_type".data] :=
  ⟨rfl, by decide⟩

/-- C7 (amended): for every upstream status other than 200 the handler
returns the upstream's own status code with
`{"error": "API request failed with status <code>", "details": <body>}`,
where `details` carries the full upstream body, not truncated to any
bound (unboundedness shown by `c7_counterexample`). -/
theorem c7_upstream_error_response (status : Nat) (bodyText : List Char)
    (parsed : Option JsonValue) (dumpsError : Option ErrInfo)
    (dataStr : List Char) (parseErr : ErrInfo) (h : status ≠ 200) :
    get_properties_core status bodyText parsed dumpsError dataStr parseErr =
      (status, .obj [
        ("error".data,
          .str ("API request failed with status ".data ++ natToChars status)),
        ("details".data, .str bodyText)]) :=
  get_properties_nonOk status bodyText parsed dumpsError dataStr parseErr h

/-- C7 witness: upstream 503 with body `"Service Unavailable"` yields
HTTP 503 with exactly the spec's example object. -/
theorem c7_witness :
    (503 : Nat) ≠ 200 ∧
      get_properties_core 503 ("Service Unavailable".data) none none [] ⟨[], []⟩ =
        (503, .obj [
          ("error".data, .str "API request failed with status 503".data),
          ("details".data, .str "Service Unavailable".data)]) := by
  refine ⟨by decide, ?_⟩
  rw [c7_upstream_error_response 503 ("Service Unavailable".data) none none []
      ⟨[], []⟩ (by decide)]
  rfl

/-- C7 counterexample: the `details` text is not bounded in length — for
every candidate bound there is an upstream body whose `details` exceeds
it, since the handler copies the whole body. -/
theorem c7_counterexample :
    ¬ ∃ N : Nat, ∀ bodyText : List Char,
        detailsLength (get_properties_core 503 bodyText none none [] ⟨[], []⟩) ≤ N := by
  rintro ⟨N, h⟩
  have h2 := h (List.replicate (N + 1) 'a')
  rw [get_properties_nonOk 503 (List.replicate (N + 1) 'a') none none []
        ⟨[], []⟩ (by decide),
      detailsLength_pair, List.length_replicate] at h2
  omega

/-- C8: cleaning preserves object key insertion order (no key is removed,
reordered or deduplicated) and array element order (elementwise map). -/
theorem c8_order_preserved (kvs : List (List Char × JsonValue))
    (xs : List JsonValue) :
    jKeys (clean_nan_values (.obj kvs)) = kvs.map Prod.fst ∧
      clean_nan_values (.arr xs) = .arr (xs.map clean_nan_values) := by
  refine ⟨?_, clean_arr_eq xs⟩
  rw [clean_obj_eq]
  show (kvs.map (fun kv => (kv.1, clean_nan_values kv.2))).map Prod.fst =
    kvs.map Prod.fst
  exact map_fst_clean kvs

/-- C9 (amended): `find_problematic_field` returns nothing whenever no
string leaf fails isolated serialization; it is not a complete locator —
recursive results under object values are discarded (see
`c9_counterexample`). -/
theorem c9_locator_none_when_no_bad (bad : List Char → Bool) (v : JsonValue)
    (h : containsBadString bad v = false) :
    find_problematic_field bad v = none :=
  find_none_of_no_bad bad v h

/-- C9 witness: on an object all of whose strings serialize, the locator
returns nothing. -/
theorem c9_witness :
    containsBadString eqBadToken (.obj [("a".data, .str "ok".data)]) = false ∧
      find_problematic_field eqBadToken (.obj [("a".data, .str "ok".data)]) = none :=
  ⟨by decide, c9_locator_none_when_no_bad eqBadToken _ (by decide)⟩

/-- C9 counterexample: the tree `{"a": {"b": <failing string>}}` contains a
string leaf failing isolated serialization, yet the locator returns
nothing, because the dict branch discards the result of its recursive
call on object-valued members. -/
theorem c9_counterexample :
    containsBadString eqBadToken
        (.obj [("a".data, .obj [("b".data, .str "bad".data)])]) = true ∧
      find_problematic_field eqBadToken
        (.obj [("a".data, .obj [("b".data, .str "bad".data)])]) = none :=
  ⟨by decide, rfl⟩

/-- C10: the string handling duplicated in the two branches of
`clean_nan_values` (dict branch, lines 68-94, and scalar branch,
lines 113-138) is one and the same function: same sentinel-to-null test
and same character replacements and strips. -/
theorem c10_string_branches_equal (s : List Char) :
    cleanStringDict s = cleanStringScalar s := rfl

end Microburbs
